import Mathlib

set_option maxRecDepth 8000

deriving instance DecidableEq for Except

namespace MCS

/-! Embedding of the SHA-256 hash and base64 digest encoding used by the
base64sha256 helper in src/reporting.js, which calls the node crypto
sha256 hash and renders the digest in base64.  Machine words are Nat
values kept below 2^32 by explicit reduction modulo 4294967296. -/

def w32 : Nat := 4294967296

def rotr (n x : Nat) : Nat := Nat.lor (x >>> n) ((x <<< (32 - n)) % w32)

def bsig0 (x : Nat) : Nat := Nat.xor (rotr 2 x) (Nat.xor (rotr 13 x) (rotr 22 x))

def bsig1 (x : Nat) : Nat := Nat.xor (rotr 6 x) (Nat.xor (rotr 11 x) (rotr 25 x))

def ssig0 (x : Nat) : Nat := Nat.xor (rotr 7 x) (Nat.xor (rotr 18 x) (x >>> 3))

def ssig1 (x : Nat) : Nat := Nat.xor (rotr 17 x) (Nat.xor (rotr 19 x) (x >>> 10))

/-- The 64 SHA-256 round constants, written in decimal. -/
def k256 : List Nat :=
  [1116352408, 1899447441, 3049323471, 3921009573, 961987163,
   1508970993, 2453635748, 2870763221, 3624381080, 310598401,
   607225278, 1426881987, 1925078388, 2162078206, 2614888103,
   3248222580, 3835390401, 4022224774, 264347078, 604807628,
   770255983, 1249150122, 1555081692, 1996064986, 2554220882,
   2821834349, 2952996808, 3210313671, 3336571891, 3584528711,
   113926993, 338241895, 666307205, 773529912, 1294757372,
   1396182291, 1695183700, 1986661051, 2177026350, 2456956037,
   2730485921, 2820302411, 3259730800, 3345764771, 3516065817,
   3600352804, 4094571909, 275423344, 430227734, 506948616,
   659060556, 883997877, 958139571, 1322822218, 1537002063,
   1747873779, 1955562222, 2024104815, 2227730452, 2361852424,
   2428436474, 2756734187, 3204031479, 3329325298]

/-- The eight SHA-256 starting hash words, written in decimal. -/
def hInit : List Nat :=
  [1779033703, 3144134277, 1013904242, 2773480762,
   1359893119, 2600822924, 528734635, 1541459225]

def lenBytes64 (n : Nat) : List Nat :=
  [(n >>> 56) % 256, (n >>> 48) % 256, (n >>> 40) % 256, (n >>> 32) % 256,
   (n >>> 24) % 256, (n >>> 16) % 256, (n >>> 8) % 256, n % 256]

def padMessage (msg : List Nat) : List Nat :=
  msg ++ 0x80 :: (List.replicate ((119 - (msg.length % 64)) % 64) 0 ++ lenBytes64 (msg.length * 8))

def toWords : List Nat → List Nat
  | b0 :: b1 :: b2 :: b3 :: rest =>
      (((b0 * 256 + b1) * 256 + b2) * 256 + b3) :: toWords rest
  | _ => []

def extendWords (ws : List Nat) : Nat → List Nat
  | 0 => ws
  | n + 1 =>
      let t := ws.length
      let nw := (ssig1 (ws.getD (t - 2) 0) + ws.getD (t - 7) 0 +
                 ssig0 (ws.getD (t - 15) 0) + ws.getD (t - 16) 0) % w32
      extendWords (ws ++ [nw]) n

def compressStep (st : List Nat) (wk : Nat × Nat) : List Nat :=
  match st with
  | [a, b, c, d, e, f, g, h] =>
      let ch := Nat.xor (Nat.land e f) (Nat.land (Nat.xor 4294967295 e) g)
      let maj := Nat.xor (Nat.land a b) (Nat.xor (Nat.land a c) (Nat.land b c))
      let t1 := (h + bsig1 e + ch + wk.2 + wk.1) % w32
      let t2 := (bsig0 a + maj) % w32
      [(t1 + t2) % w32, a, b, c, (d + t1) % w32, e, f, g]
  | st => st

def compressBlock (hs : List Nat) (block : List Nat) : List Nat :=
  let ws := extendWords (toWords block) 48
  let st := (ws.zip k256).foldl compressStep hs
  (hs.zip st).map (fun p => (p.1 + p.2) % w32)

def compressBlocks (fuel : Nat) (hs : List Nat) (msg : List Nat) : List Nat :=
  match fuel, msg with
  | _, [] => hs
  | 0, _ => hs
  | f + 1, msg => compressBlocks f (compressBlock hs (msg.take 64)) (msg.drop 64)

def wordBytes (x : Nat) : List Nat :=
  [(x >>> 24) % 256, (x >>> 16) % 256, (x >>> 8) % 256, x % 256]

def sha256 (msg : List Nat) : List Nat :=
  let padded := padMessage msg
  (compressBlocks padded.length hInit padded).foldr
    (fun x acc => wordBytes x ++ acc) []

def b64Alphabet : List Char :=
  "ABCDEFGHIJKLMNOPQRSTUVWXYZabcdefghijklmnopqrstuvwxyz0123456789+/".data

def b64Char (n : Nat) : Char := b64Alphabet.getD n 'A'

def b64encode : List Nat → String
  | b0 :: b1 :: b2 :: rest =>
      let g := (b0 * 256 + b1) * 256 + b2
      String.mk [b64Char ((g >>> 18) % 64), b64Char ((g >>> 12) % 64),
                 b64Char ((g >>> 6) % 64), b64Char (g % 64)] ++ b64encode rest
  | [b0, b1] =>
      let g := (b0 * 256 + b1) * 4
      String.mk [b64Char ((g >>> 12) % 64), b64Char ((g >>> 6) % 64), b64Char (g % 64), '=']
  | [b0] =>
      let g := b0 * 16
      String.mk [b64Char ((g >>> 6) % 64), b64Char (g % 64), '=', '=']
  | [] => ""

def utf8Encode (c : Char) : List Nat :=
  let n := c.toNat
  if n < 128 then [n]
  else if n < 2048 then [192 + (n >>> 6), 128 + n % 64]
  else if n < 65536 then [224 + (n >>> 12), 128 + (n >>> 6) % 64, 128 + n % 64]
  else [240 + (n >>> 18), 128 + (n >>> 12) % 64, 128 + (n >>> 6) % 64, 128 + n % 64]

def utf8Bytes (s : String) : List Nat :=
  s.data.foldr (fun c acc => utf8Encode c ++ acc) []

/-- The base64sha256 helper of src/reporting.js: SHA-256 of the UTF-8 bytes
of the input, rendered in base64. -/
def base64sha256 (s : String) : String := b64encode (sha256 (utf8Bytes s))

/-! JSON values of the shape admitted by the Joi scanSchema in
src/handlers.js: the event content file is an object whose fields are
strings, booleans, arrays of strings, or one-level objects of those
(key, hashes).  Field order is the JS object insertion order, which
JSON.stringify preserves. -/

inductive JLeaf where
  | str (s : String)
  | bool (b : Bool)
  | strArr (elems : List String)
deriving DecidableEq, Repr

inductive JVal where
  | leaf (v : JLeaf)
  | obj (fields : List (String × JLeaf))
deriving DecidableEq, Repr

/-- An event content file object: named fields in insertion order. -/
abbrev JObj := List (String × JVal)

def hexDigit (n : Nat) : Char :=
  "0123456789abcdef".data.getD n '0'

/-- The escaping JSON.stringify applies inside string literals. -/
def escapeChar (c : Char) : List Char :=
  if c = '"' then ['\\', '"']
  else if c = '\\' then ['\\', '\\']
  else if c = Char.ofNat 8 then ['\\', 'b']
  else if c = Char.ofNat 9 then ['\\', 't']
  else if c = Char.ofNat 10 then ['\\', 'n']
  else if c = Char.ofNat 12 then ['\\', 'f']
  else if c = Char.ofNat 13 then ['\\', 'r']
  else if c.toNat < 32 then
    ['\\', 'u', '0', '0', hexDigit (c.toNat / 16), hexDigit (c.toNat % 16)]
  else [c]

def quoteString (s : String) : String :=
  String.mk ('"' :: s.data.foldr (fun c acc => escapeChar c ++ acc) ['"'])

def stringifyLeaf : JLeaf → String
  | .str s => quoteString s
  | .bool true => "true"
  | .bool false => "false"
  | .strArr xs => "[" ++ String.intercalate "," (xs.map quoteString) ++ "]"

def stringifyVal : JVal → String
  | .leaf v => stringifyLeaf v
  | .obj fs =>
      "\x7b" ++ String.intercalate "," (fs.map (fun kv => quoteString kv.1 ++ ":" ++ stringifyLeaf kv.2)) ++ "\x7d"

/-- JSON.stringify of the event content file object: fields emitted in
insertion order, no whitespace (the V8 default). -/
def jsonStringify (fs : JObj) : String :=
  "\x7b" ++ String.intercalate "," (fs.map (fun kv => quoteString kv.1 ++ ":" ++ stringifyVal kv.2)) ++ "\x7d"

/-- JS truthiness of a leaf value (empty string and false are falsy). -/
def JLeaf.truthy : JLeaf → Bool
  | .str s => s != ""
  | .bool b => b
  | .strArr _ => true

/-- JS truthiness of a field value; any object or array is truthy. -/
def JVal.truthy : JVal → Bool
  | .leaf v => v.truthy
  | .obj _ => true

/-- Reading a string-valued property of the object, as in
eventContentFile.url followed by a string method. -/
def getStrField (fs : JObj) (k : String) : Option String :=
  match fs.lookup k with
  | some (.leaf (.str s)) => some s
  | _ => none

/-- Truthiness of the test if (eventContentFile.key): absent fields are
undefined and falsy. -/
def truthyField (fs : JObj) (k : String) : Bool :=
  match fs.lookup k with
  | some v => v.truthy
  | none => false

/-- The JS String.prototype.slice(n) for a nonnegative start index
(on BMP strings, where code units and characters agree). -/
def jsDrop (s : String) (n : Nat) : String := String.mk (s.data.drop n)

/-- The JS s.slice(0, n) for a nonnegative end index. -/
def jsTake (s : String) (n : Nat) : String := String.mk (s.data.take n)

/-! Embedding of src/reporting.js.  Stateful pieces (the in-memory
resultCache, the filesystem under the temp directory, and the calls to
request-promise, decrypt-file and execute-cmd) become explicit state
passing through a World record; the collaborators are an Env of
functions; effects are recorded in logs so that claims about which
calls happen are statements about the logs. -/

abbrev Bytes := List Nat

/-- The verdict object produced by execute-cmd.js. -/
structure ScanResult where
  clean : Bool
  info : String
  exitCode : Int
deriving DecidableEq, Repr

/-- A verdict as stored in resultCache, after generateReport has set
result.resultSecret (line 198 of reporting.js). -/
structure CachedResult where
  clean : Bool
  info : String
  exitCode : Int
  resultSecret : String
deriving DecidableEq, Repr

/-- The response shape of getReport.  The clean and info fields may be the
JS undefined, modelled as none: that happens when the cache access finds a
member inherited from Object.prototype instead of a stored verdict, and the
destructuring of clean and info from it yields undefined twice. -/
structure ReportStatus where
  clean : Option Bool
  scanned : Bool
  info : Option String
deriving DecidableEq, Repr

abbrev ResultCache := List (String × CachedResult)

/-- The property names a plain object literal inherits from
Object.prototype in Node: reading any of these on the object-literal
resultCache yields the inherited method (or, for the proto accessor, an
object), which is defined and truthy. -/
def objectPrototypeKeys : List String :=
  ["constructor", "hasOwnProperty", "isPrototypeOf", "propertyIsEnumerable",
   "toLocaleString", "toString", "valueOf", "__proto__",
   "__defineGetter__", "__defineSetter__", "__lookupGetter__", "__lookupSetter__"]

/-- The outcome of one JS property read resultCache[k] on the plain-object
cache: an own property when one was stored under k, otherwise the truthy
member inherited from Object.prototype when k names one, otherwise
undefined. -/
inductive CacheRead where
  | own (r : CachedResult)
  | inherited
  | missing
deriving DecidableEq, Repr

/-- The JS property access resultCache[k], prototype chain included. -/
def cacheAccess (cache : ResultCache) (k : String) : CacheRead :=
  match cache.lookup k with
  | some r => .own r
  | none => if objectPrototypeKeys.contains k then .inherited else .missing

/-- The world state threaded through generateReport: the module-level
resultCache, the filesystem (files by path, directories), the counter
feeding the unique names of mkdtempSync, and logs of the fetch, decrypt and
scan effects performed so far. -/
structure World where
  resultCache : ResultCache
  files : List (String × Bytes)
  dirs : List String
  tempCounter : Nat
  fetchLog : List String
  decryptLog : List String
  scanLog : List String
deriving DecidableEq, Repr

/-- The external collaborators: request-promise, decrypt-file.js and
execute-cmd.js.  Each may fail, which in the JS code is a rejected
promise or a thrown exception. -/
structure Env where
  fetch : String → Except String Bytes
  decryptFile : Bytes → JObj → Except String Bytes
  executeCommand : String → Except String ScanResult

/-- The opts argument (config.scan): fields may be undefined. -/
structure Opts where
  baseUrl : Option String
  tempDirectory : Option String
  script : Option String

/-- Exceptions generateReport can throw: the plain Error of the opts
check, ClientError(status, message), or a rejection propagated from
executeCommand. -/
inductive GenError where
  | error (msg : String)
  | clientError (status : Nat) (msg : String)
  | scanRejected (msg : String)
deriving DecidableEq, Repr

/-- Removing a path from the modelled filesystem (fs.unlinkSync). -/
def unlinkFile : List (String × Bytes) → String → List (String × Bytes)
  | [], _ => []
  | (k, v) :: rest, p => if k = p then unlinkFile rest p else (k, v) :: unlinkFile rest p

/-- Writing a path in the modelled filesystem (fs.writeFileSync). -/
def writeFile (files : List (String × Bytes)) (p : String) (data : Bytes) : List (String × Bytes) :=
  (p, data) :: unlinkFile files p

/-- Removing a directory from the modelled filesystem (fs.rmdirSync). -/
def rmdir : List String → String → List String
  | [], _ => []
  | d0 :: rest, d => if d0 = d then rmdir rest d else d0 :: rmdir rest d

/-- The unique directory name fs.mkdtempSync(tempDirectory + path.sep + av-)
produces, modelled by a counter (path.sep is / on the target platform). -/
def mkdtempName (tempDirectory : String) (counter : Nat) : String :=
  tempDirectory ++ "/av-" ++ toString counter

/-- Lines 192-208 of reporting.js: run the scan command, stamp the
verdict with resultSecret, store it in resultCache, then unlink the temp
files and remove the temp directory (the only cleanup in the function). -/
def scanAndCache (env : Env) (script resultSecret filePath decryptedFilePath tempDir : String)
    (w : World) : Except GenError CachedResult × World :=
  let cmd := script ++ " " ++ decryptedFilePath
  let w1 : World := { w with scanLog := w.scanLog ++ [cmd] }
  match env.executeCommand cmd with
  | .error msg => (.error (.scanRejected msg), w1)
  | .ok result =>
    let cached : CachedResult :=
      { clean := result.clean, info := result.info, exitCode := result.exitCode,
        resultSecret := resultSecret }
    let w2 : World := { w1 with resultCache := (resultSecret, cached) :: w1.resultCache }
    let w3 : World := { w2 with files := unlinkFile w2.files filePath }
    let w4 : World :=
      if filePath = decryptedFilePath then w3
      else { w3 with files := unlinkFile w3.files decryptedFilePath }
    let w5 : World := { w4 with dirs := rmdir w4.dirs tempDir }
    (.ok cached, w5)

/-- Lines 162-208 of reporting.js: the cache-miss path.  Creates the temp
directory, fetches (502 ClientError on failure), writes the download,
decrypts when a key is present (400 ClientError on failure), then scans
and caches.  Note that the failure branches return without any cleanup. -/
def generateReportMiss (env : Env) (eventContentFile : JObj)
    (tempDirectory script httpUrl resultSecret : String) (w : World) :
    Except GenError CachedResult × World :=
  let tempDir := mkdtempName tempDirectory w.tempCounter
  let filePath := tempDir ++ "/unsafeEncryptedFile"
  let w1 : World := { w with tempCounter := w.tempCounter + 1, dirs := tempDir :: w.dirs,
                             fetchLog := w.fetchLog ++ [httpUrl] }
  match env.fetch httpUrl with
  | .error _ => (.error (.clientError 502 "Failed to get requested URL"), w1)
  | .ok data =>
    let w2 : World := { w1 with files := writeFile w1.files filePath data }
    if truthyField eventContentFile "key" then
      let decryptedFilePath := tempDir ++ "/unsafeFile"
      let w3 : World := { w2 with decryptLog := w2.decryptLog ++ [filePath] }
      match env.decryptFile data eventContentFile with
      | .error _ => (.error (.clientError 400 "Failed to decrypt file"), w3)
      | .ok plaintext =>
        let w4 : World := { w3 with files := writeFile w3.files decryptedFilePath plaintext }
        scanAndCache env script resultSecret filePath decryptedFilePath tempDir w4
    else
      scanAndCache env script resultSecret filePath filePath tempDir w2

/-- Lines 141-209 of reporting.js: generateReport.  Check opts, derive
the download URL by unconditionally slicing 6 characters off the mxc
url, fingerprint the descriptor by base64sha256 of its JSON
serialization, return a cached verdict if one exists, otherwise run the
cache-miss pipeline. -/
def generateReport (env : Env) (eventContentFile : JObj) (opts : Opts) (w : World) :
    Except GenError CachedResult × World :=
  match opts.baseUrl, opts.tempDirectory, opts.script with
  | some baseUrl, some tempDirectory, some script =>
    match getStrField eventContentFile "url" with
    | none => (.error (.error "url is not a string"), w)
    | some url =>
      let httpUrl := baseUrl ++ "/_matrix/media/v1/download/" ++ jsDrop url 6
      let resultSecret := base64sha256 (jsonStringify eventContentFile)
      -- The key here is always the 44-character base64 digest just computed,
      -- which cannot equal an inherited Object.prototype property name, so a
      -- plain lookup models the object access faithfully on this path; the
      -- caller-controlled access in getReport goes through cacheAccess instead.
      match w.resultCache.lookup resultSecret with
      | some result => (.ok result, w)
      | none => generateReportMiss env eventContentFile tempDirectory script httpUrl resultSecret w
  | _, _, _ => (.error (.error "Expected baseUrl, tempDirectory and script in opts"), w)

/-- Lines 122-131 of reporting.js: getReport.  The read of
resultCache[resultSecret] follows the JS prototype chain (cacheAccess):
when the caller-supplied secret names an inherited Object.prototype member
the result is truthy, so the not-recognised branch is skipped and the
destructured clean and info are both undefined. -/
def getReport (resultCache : ResultCache) (resultSecret : String) : ReportStatus :=
  match cacheAccess resultCache resultSecret with
  | .missing =>
      { clean := some false, scanned := false,
        info := some "Secret not recognised, file not scanned." }
  | .inherited => { clean := none, scanned := true, info := none }
  | .own result =>
      { clean := some result.clean, scanned := true, info := some result.info }

/-- Lines 117-119 of reporting.js: clearReportCache resets the cache. -/
def clearReportCache (_cache : ResultCache) : ResultCache := []

/-- Line 73 of handlers.js: the redacted rendering of the secret logged
by scanReportHandler, secret.slice(0, 4) + dots + secret.slice(-4). -/
def redactedSecret (secret : String) : String :=
  jsTake secret 4 ++ "..." ++ jsDrop secret (secret.length - 4)

/-! Concrete inputs used by witnesses and counterexamples. -/

def cDesc : JObj := [("url", .leaf (.str "mxc://a/b"))]

def cDescKey : JObj :=
  [("v", .leaf (.str "v2")),
   ("key", .obj [("alg", .str "A256CTR"), ("ext", .bool true), ("k", .str "aWJnZQ"),
                 ("key_ops", .strArr ["encrypt", "decrypt"]), ("kty", .str "oct")]),
   ("iv", .leaf (.str "aXZpdg")),
   ("hashes", .obj [("sha256", .str "ZmFrZWhhc2g")]),
   ("url", .leaf (.str "mxc://a/enc"))]

def cOpts : Opts := { baseUrl := some "http://ms", tempDirectory := some "/tmp", script := some "scan.sh" }

def cEnv : Env :=
  { fetch := fun _ => .ok [104, 105],
    decryptFile := fun _ _ => .ok [112],
    executeCommand := fun _ => .ok { clean := true, info := "clean", exitCode := 0 } }

def cEnvFetchFail : Env := { cEnv with fetch := fun _ => .error "ECONNREFUSED" }

def cEnvDecFail : Env := { cEnv with decryptFile := fun _ _ => .error "bad mac" }

def w0 : World :=
  { resultCache := [], files := [], dirs := [], tempCounter := 0,
    fetchLog := [], decryptLog := [], scanLog := [] }

/-- The verdict generateReport produces for cDesc under cEnv. -/
def cRes1 : CachedResult :=
  { clean := true, info := "clean", exitCode := 0,
    resultSecret := base64sha256 (jsonStringify cDesc) }

/-- The world after a successful generateReport on cDesc from the empty world. -/
def cW1 : World :=
  { resultCache := [(base64sha256 (jsonStringify cDesc), cRes1)],
    files := [], dirs := [], tempCounter := 1,
    fetchLog := ["http://ms/_matrix/media/v1/download/a/b"],
    decryptLog := [],
    scanLog := ["scan.sh /tmp/av-0/unsafeEncryptedFile"] }

/-- The world after a decrypt-failure run on cDescKey from the empty world:
the downloaded ciphertext and the temp directory are left behind. -/
def cWFail : World :=
  { resultCache := [], files := [("/tmp/av-0/unsafeEncryptedFile", [104, 105])],
    dirs := ["/tmp/av-0"], tempCounter := 1,
    fetchLog := ["http://ms/_matrix/media/v1/download/a/enc"],
    decryptLog := ["/tmp/av-0/unsafeEncryptedFile"], scanLog := [] }

/-- The verdict of a successful retry on cDescKey. -/
def cResK : CachedResult :=
  { clean := true, info := "clean", exitCode := 0,
    resultSecret := base64sha256 (jsonStringify cDescKey) }

/-- The world after the successful retry on cDescKey, starting from cWFail. -/
def cWRetry : World :=
  { resultCache := [(base64sha256 (jsonStringify cDescKey), cResK)],
    files := [("/tmp/av-0/unsafeEncryptedFile", [104, 105])],
    dirs := ["/tmp/av-0"], tempCounter := 2,
    fetchLog := ["http://ms/_matrix/media/v1/download/a/enc",
                 "http://ms/_matrix/media/v1/download/a/enc"],
    decryptLog := ["/tmp/av-0/unsafeEncryptedFile", "/tmp/av-1/unsafeEncryptedFile"],
    scanLog := ["scan.sh /tmp/av-1/unsafeFile"] }

/-- The world after the second of two raced pipelines for cDesc (call B ran
its whole miss path after call A finished). -/
def cWRace : World :=
  { resultCache := [(base64sha256 (jsonStringify cDesc), cRes1),
                    (base64sha256 (jsonStringify cDesc), cRes1)],
    files := [], dirs := [], tempCounter := 2,
    fetchLog := ["http://ms/_matrix/media/v1/download/a/b",
                 "http://ms/_matrix/media/v1/download/a/b"],
    decryptLog := [],
    scanLog := ["scan.sh /tmp/av-0/unsafeEncryptedFile",
                "scan.sh /tmp/av-1/unsafeEncryptedFile"] }

/-- A descriptor whose url is short and carries no mxc scheme. -/
def cDescNoScheme : JObj := [("url", JVal.leaf (.str "abc"))]

/-- Two descriptors with the same fields in opposite order. -/
def cDescOrdA : JObj :=
  [("url", JVal.leaf (.str "mxc://a/b")), ("mimetype", JVal.leaf (.str "text/plain"))]

def cDescOrdB : JObj :=
  [("mimetype", JVal.leaf (.str "text/plain")), ("url", JVal.leaf (.str "mxc://a/b"))]

/-! The SHA-256 embedding agrees with the standard test vector for the
string abc. -/

theorem sha256_test_vector :
    base64sha256 "abc" = "ungWv48Bz+pBQUDeXa4iI7ADYaOWF3qctBD/YfIAFa0=" := by decide

/-! Helper lemmas about the filesystem model. -/

theorem lookup_unlink_self (fs : List (String × Bytes)) (p : String) :
    (unlinkFile fs p).lookup p = none := by
  induction fs with
  | nil => rfl
  | cons e rest ih =>
      obtain ⟨k, v⟩ := e
      unfold unlinkFile
      by_cases hp : k = p
      · rw [if_pos hp]; exact ih
      · rw [if_neg hp]
        simpa [List.lookup_cons, beq_false_of_ne (fun hpk : p = k => hp hpk.symm)] using ih

theorem lookup_unlink_ne (fs : List (String × Bytes)) (p q : String) (h : q ≠ p) :
    (unlinkFile fs p).lookup q = fs.lookup q := by
  induction fs with
  | nil => rfl
  | cons e rest ih =>
      obtain ⟨k, v⟩ := e
      unfold unlinkFile
      by_cases hp : k = p
      · rw [if_pos hp, ih]
        have hq : q ≠ k := fun hqe => h (hqe.trans hp)
        simp [List.lookup_cons, beq_false_of_ne hq]
      · rw [if_neg hp]
        by_cases hq : q = k
        · subst hq; simp [List.lookup_cons]
        · simp [List.lookup_cons, beq_false_of_ne hq, ih]

theorem lookup_write_ne (fs : List (String × Bytes)) (p q : String) (data : Bytes) (h : q ≠ p) :
    (writeFile fs p data).lookup q = fs.lookup q := by
  unfold writeFile
  simp only [List.lookup_cons, beq_false_of_ne h]
  exact lookup_unlink_ne fs p q h

theorem not_mem_rmdir_self (ds : List String) (d : String) : d ∉ rmdir ds d := by
  induction ds with
  | nil => simp [rmdir]
  | cons d0 rest ih =>
      unfold rmdir
      by_cases hd : d0 = d
      · rw [if_pos hd]; exact ih
      · rw [if_neg hd]
        intro hmem
        rcases List.mem_cons.mp hmem with hh | ht
        · exact hd hh.symm
        · exact ih ht

/-- The two temp file names inside a temp directory differ. -/
theorem unsafeFile_ne_unsafeEncryptedFile (td : String) :
    td ++ "/unsafeFile" ≠ td ++ "/unsafeEncryptedFile" := by
  intro h
  have hl := congrArg String.length h
  rw [String.length_append, String.length_append] at hl
  have h1 : ("/unsafeFile" : String).length = 11 := rfl
  have h2 : ("/unsafeEncryptedFile" : String).length = 20 := rfl
  omega

/-! Helper lemmas about scanAndCache. -/

theorem scanAndCache_ok (env : Env) (script sec fp dfp td : String) (w : World)
    (r : CachedResult) (w' : World)
    (h : scanAndCache env script sec fp dfp td w = (.ok r, w')) :
    w'.resultCache = (sec, r) :: w.resultCache ∧
    w'.scanLog = w.scanLog ++ [script ++ " " ++ dfp] ∧
    w'.files.lookup fp = none ∧
    w'.files.lookup dfp = none ∧
    td ∉ w'.dirs ∧
    w'.fetchLog = w.fetchLog ∧
    w'.decryptLog = w.decryptLog ∧
    (∀ q, q ≠ fp → q ≠ dfp → w'.files.lookup q = w.files.lookup q) := by
  simp only [scanAndCache] at h
  split at h
  · simp at h
  · simp only [Prod.mk.injEq, Except.ok.injEq] at h
    obtain ⟨hr, hw⟩ := h
    subst hr
    by_cases hfd : fp = dfp
    · subst hfd
      rw [if_pos rfl] at hw
      subst hw
      refine ⟨rfl, rfl, lookup_unlink_self _ _, lookup_unlink_self _ _,
        not_mem_rmdir_self _ _, rfl, rfl, ?_⟩
      intro q hq _
      exact lookup_unlink_ne _ _ _ hq
    · rw [if_neg hfd] at hw
      subst hw
      refine ⟨rfl, rfl, ?_, lookup_unlink_self _ _, not_mem_rmdir_self _ _, rfl, rfl, ?_⟩
      · rw [lookup_unlink_ne _ _ _ hfd]
        exact lookup_unlink_self _ _
      · intro q hq1 hq2
        rw [lookup_unlink_ne _ _ _ hq2, lookup_unlink_ne _ _ _ hq1]

theorem scanAndCache_error (env : Env) (script sec fp dfp td : String) (w : World)
    (e : GenError) (w' : World)
    (h : scanAndCache env script sec fp dfp td w = (.error e, w')) :
    w'.resultCache = w.resultCache ∧ w'.files = w.files ∧ w'.dirs = w.dirs ∧
    w'.fetchLog = w.fetchLog := by
  simp only [scanAndCache] at h
  split at h
  · simp only [Prod.mk.injEq, Except.error.injEq] at h
    obtain ⟨_, hw⟩ := h
    subst hw
    exact ⟨rfl, rfl, rfl, rfl⟩
  · simp at h

theorem scanAndCache_fetchLog (env : Env) (script sec fp dfp td : String) (w : World) :
    (scanAndCache env script sec fp dfp td w).2.fetchLog = w.fetchLog := by
  simp only [scanAndCache]
  split
  · rfl
  · by_cases hfd : fp = dfp
    · simp [if_pos hfd]
    · simp [if_neg hfd]

/-! Helper lemmas about the cache-miss path. -/

theorem generateReportMiss_ok (env : Env) (ecf : JObj) (tdir script hu sec : String)
    (w : World) (r : CachedResult) (w' : World)
    (h : generateReportMiss env ecf tdir script hu sec w = (.ok r, w')) :
    w'.resultCache = (sec, r) :: w.resultCache ∧
    w'.scanLog.length = w.scanLog.length + 1 ∧
    w'.fetchLog = w.fetchLog ++ [hu] ∧
    w'.files.lookup (mkdtempName tdir w.tempCounter ++ "/unsafeEncryptedFile") = none ∧
    w'.files.lookup (mkdtempName tdir w.tempCounter ++ "/unsafeFile")
      = (if truthyField ecf "key" then none
         else w.files.lookup (mkdtempName tdir w.tempCounter ++ "/unsafeFile")) ∧
    mkdtempName tdir w.tempCounter ∉ w'.dirs := by
  simp only [generateReportMiss] at h
  split at h
  · simp at h
  · rename_i xf data hfeq
    split at h
    · -- key present: decrypt then scan
      rename_i hkey
      split at h
      · simp at h
      · rename_i xd pt hdeq
        obtain ⟨hc, hl, hfp, hdfp, hdir, hfetch, _, _⟩ :=
          scanAndCache_ok _ _ _ _ _ _ _ _ _ h
        refine ⟨hc, by rw [hl]; simp, hfetch, hfp, ?_, hdir⟩
        rw [if_pos hkey]
        exact hdfp
    · -- no key: fetched file is scanned directly
      rename_i hkey
      obtain ⟨hc, hl, hfp, _, hdir, hfetch, _, hother⟩ :=
        scanAndCache_ok _ _ _ _ _ _ _ _ _ h
      refine ⟨hc, by rw [hl]; simp, hfetch, hfp, ?_, hdir⟩
      rw [if_neg (by simp [hkey])]
      have hne := unsafeFile_ne_unsafeEncryptedFile (mkdtempName tdir w.tempCounter)
      rw [hother _ hne hne]
      exact lookup_write_ne _ _ _ _ hne

theorem generateReportMiss_error (env : Env) (ecf : JObj) (tdir script hu sec : String)
    (w : World) (e : GenError) (w' : World)
    (h : generateReportMiss env ecf tdir script hu sec w = (.error e, w')) :
    w'.resultCache = w.resultCache := by
  simp only [generateReportMiss] at h
  split at h
  · simp only [Prod.mk.injEq, Except.error.injEq] at h
    obtain ⟨_, hw⟩ := h
    subst hw
    rfl
  · split at h
    · split at h
      · simp only [Prod.mk.injEq, Except.error.injEq] at h
        obtain ⟨_, hw⟩ := h
        subst hw
        rfl
      · exact (scanAndCache_error _ _ _ _ _ _ _ _ _ h).1
    · exact (scanAndCache_error _ _ _ _ _ _ _ _ _ h).1

theorem generateReportMiss_fetchLog (env : Env) (ecf : JObj) (tdir script hu sec : String)
    (w : World) :
    (generateReportMiss env ecf tdir script hu sec w).2.fetchLog = w.fetchLog ++ [hu] := by
  simp only [generateReportMiss]
  split
  · rfl
  · split
    · split
      · rfl
      · exact scanAndCache_fetchLog _ _ _ _ _ _ _
    · exact scanAndCache_fetchLog _ _ _ _ _ _ _

/-! Helper lemmas about generateReport. -/

theorem generateReport_ok_cache (env : Env) (D : JObj) (opts : Opts) (w : World)
    (r : CachedResult) (w' : World)
    (h : generateReport env D opts w = (.ok r, w')) :
    w'.resultCache.lookup (base64sha256 (jsonStringify D)) = some r := by
  obtain ⟨ob, ot, os⟩ := opts
  rcases ob with _ | b
  · simp [generateReport] at h
  rcases ot with _ | t
  · simp [generateReport] at h
  rcases os with _ | s
  · simp [generateReport] at h
  simp only [generateReport] at h
  split at h
  · simp at h
  · split at h
    · rename_i xr result hlook
      simp only [Prod.mk.injEq, Except.ok.injEq] at h
      obtain ⟨hr, hw⟩ := h
      subst hr
      subst hw
      exact hlook
    · rw [(generateReportMiss_ok _ _ _ _ _ _ _ _ _ h).1]
      simp [List.lookup_cons]

theorem generateReport_error_cache (env : Env) (D : JObj) (opts : Opts) (w : World)
    (e : GenError) (w' : World)
    (h : generateReport env D opts w = (.error e, w')) :
    w'.resultCache = w.resultCache := by
  obtain ⟨ob, ot, os⟩ := opts
  rcases ob with _ | b
  · simp [generateReport] at h
    obtain ⟨_, hw⟩ := h
    subst hw
    rfl
  rcases ot with _ | t
  · simp [generateReport] at h
    obtain ⟨_, hw⟩ := h
    subst hw
    rfl
  rcases os with _ | s
  · simp [generateReport] at h
    obtain ⟨_, hw⟩ := h
    subst hw
    rfl
  simp only [generateReport] at h
  split at h
  · simp only [Prod.mk.injEq, Except.error.injEq] at h
    obtain ⟨_, hw⟩ := h
    subst hw
    rfl
  · split at h
    · simp at h
    · exact generateReportMiss_error _ _ _ _ _ _ _ _ _ h

theorem generateReport_clientError_precheck (env : Env) (D : JObj) (opts : Opts) (w : World)
    (st : Nat) (m : String) (w' : World)
    (h : generateReport env D opts w = (.error (.clientError st m), w')) :
    w.resultCache.lookup (base64sha256 (jsonStringify D)) = none := by
  obtain ⟨ob, ot, os⟩ := opts
  rcases ob with _ | b
  · simp [generateReport] at h
  rcases ot with _ | t
  · simp [generateReport] at h
  rcases os with _ | s
  · simp [generateReport] at h
  simp only [generateReport] at h
  split at h
  · simp at h
  · split at h
    · simp at h
    · rename_i xr hlook
      exact hlook

theorem generateReport_ok_miss_scan (env : Env) (D : JObj) (opts : Opts) (w : World)
    (r : CachedResult) (w' : World)
    (h : generateReport env D opts w = (.ok r, w'))
    (hmiss : w.resultCache.lookup (base64sha256 (jsonStringify D)) = none) :
    w'.scanLog.length = w.scanLog.length + 1 := by
  obtain ⟨ob, ot, os⟩ := opts
  rcases ob with _ | b
  · simp [generateReport] at h
  rcases ot with _ | t
  · simp [generateReport] at h
  rcases os with _ | s
  · simp [generateReport] at h
  simp only [generateReport] at h
  split at h
  · simp at h
  · split at h
    · rename_i xr result hlook
      rw [hmiss] at hlook
      exact absurd hlook (by simp)
    · exact (generateReportMiss_ok _ _ _ _ _ _ _ _ _ h).2.1

theorem generateReport_hit (env : Env) (D : JObj) (opts : Opts) (w : World)
    (r : CachedResult) (b t s u : String)
    (hb : opts.baseUrl = some b) (ht : opts.tempDirectory = some t) (hs : opts.script = some s)
    (hu : getStrField D "url" = some u)
    (hlook : w.resultCache.lookup (base64sha256 (jsonStringify D)) = some r) :
    generateReport env D opts w = (.ok r, w) := by
  simp [generateReport, hb, ht, hs, hu, hlook]

theorem generateReport_ok_components (env : Env) (D : JObj) (opts : Opts) (w : World)
    (r : CachedResult) (w' : World)
    (h : generateReport env D opts w = (.ok r, w')) :
    ∃ b t s u, opts.baseUrl = some b ∧ opts.tempDirectory = some t ∧ opts.script = some s ∧
      getStrField D "url" = some u := by
  obtain ⟨ob, ot, os⟩ := opts
  rcases ob with _ | b
  · simp [generateReport] at h
  rcases ot with _ | t
  · simp [generateReport] at h
  rcases os with _ | s
  · simp [generateReport] at h
  simp only [generateReport] at h
  split at h
  · simp at h
  · rename_i xu u hurl
    exact ⟨b, t, s, u, rfl, rfl, rfl, hurl⟩

/-! The claims. -/

/-- Claim C1: if a first generateReport call on a descriptor returns a verdict,
a second sequential call with the identical descriptor returns the identical
verdict and the identical world, so it performs no fetch, no decrypt and no
scan: it is served from the result cache. -/
theorem generateReport_second_call_cached (env : Env) (D : JObj) (opts : Opts) (w : World)
    (r : CachedResult) (w1 : World)
    (h : generateReport env D opts w = (.ok r, w1)) :
    generateReport env D opts w1 = (.ok r, w1) ∧
    (generateReport env D opts w1).2.fetchLog = w1.fetchLog ∧
    (generateReport env D opts w1).2.decryptLog = w1.decryptLog ∧
    (generateReport env D opts w1).2.scanLog = w1.scanLog := by
  obtain ⟨b, t, s, u, hb, ht, hs, hu⟩ := generateReport_ok_components env D opts w r w1 h
  have hc := generateReport_ok_cache env D opts w r w1 h
  have h2 := generateReport_hit env D opts w1 r b t s u hb ht hs hu hc
  exact ⟨h2, by rw [h2], by rw [h2], by rw [h2]⟩

/-- Witness for C1 at a concrete descriptor, configuration and environment. -/
theorem generateReport_second_call_cached_witness :
    generateReport cEnv cDesc cOpts cW1 = (.ok cRes1, cW1) ∧
    (generateReport cEnv cDesc cOpts cW1).2.fetchLog = cW1.fetchLog ∧
    (generateReport cEnv cDesc cOpts cW1).2.decryptLog = cW1.decryptLog ∧
    (generateReport cEnv cDesc cOpts cW1).2.scanLog = cW1.scanLog :=
  generateReport_second_call_cached cEnv cDesc cOpts w0 cRes1 cW1 (by decide)

/-- Claim C2 counterexample: cleanup does not run on every exit path.  A
fetch failure returns with the freshly created temp directory still present,
and a decrypt failure additionally leaves the downloaded ciphertext file. -/
theorem generateReport_failure_leaves_temp :
    (generateReport cEnvFetchFail cDesc cOpts w0).1
      = Except.error (GenError.clientError 502 "Failed to get requested URL") ∧
    w0.dirs = [] ∧
    (generateReport cEnvFetchFail cDesc cOpts w0).2.dirs = ["/tmp/av-0"] ∧
    (generateReport cEnvDecFail cDescKey cOpts w0).1
      = Except.error (GenError.clientError 400 "Failed to decrypt file") ∧
    (generateReport cEnvDecFail cDescKey cOpts w0).2.dirs = ["/tmp/av-0"] ∧
    (generateReport cEnvDecFail cDescKey cOpts w0).2.files.lookup
        "/tmp/av-0/unsafeEncryptedFile" = some [104, 105] := by
  decide

/-- Claim C2 (amended): on the success path of a cache miss, the temp files
and the temp directory created by the call are all deleted before it
returns; on the fetch-failure and decrypt-failure paths nothing is cleaned
up (see the counterexample). -/
theorem generateReport_cleanup_on_success (env : Env) (D : JObj) (b t s : String) (w : World)
    (r : CachedResult) (w' : World)
    (hmiss : w.resultCache.lookup (base64sha256 (jsonStringify D)) = none)
    (hfresh : w.files.lookup (mkdtempName t w.tempCounter ++ "/unsafeFile") = none)
    (h : generateReport env D { baseUrl := some b, tempDirectory := some t, script := some s } w
          = (.ok r, w')) :
    w'.files.lookup (mkdtempName t w.tempCounter ++ "/unsafeEncryptedFile") = none ∧
    w'.files.lookup (mkdtempName t w.tempCounter ++ "/unsafeFile") = none ∧
    mkdtempName t w.tempCounter ∉ w'.dirs := by
  simp only [generateReport] at h
  split at h
  · simp at h
  · split at h
    · rename_i xr result hlook
      rw [hmiss] at hlook
      exact absurd hlook (by simp)
    · obtain ⟨_, _, _, hfp, hdfpif, hdir⟩ := generateReportMiss_ok _ _ _ _ _ _ _ _ _ h
      refine ⟨hfp, ?_, hdir⟩
      by_cases hkey : truthyField D "key"
      · rwa [if_pos hkey] at hdfpif
      · rw [if_neg hkey] at hdfpif
        rw [hdfpif]
        exact hfresh

/-- Witness for the amended C2 at a concrete successful run. -/
theorem generateReport_cleanup_on_success_witness :
    w0.resultCache.lookup (base64sha256 (jsonStringify cDesc)) = none ∧
    w0.files.lookup (mkdtempName "/tmp" w0.tempCounter ++ "/unsafeFile") = none ∧
    (cW1.files.lookup (mkdtempName "/tmp" w0.tempCounter ++ "/unsafeEncryptedFile") = none ∧
     cW1.files.lookup (mkdtempName "/tmp" w0.tempCounter ++ "/unsafeFile") = none ∧
     mkdtempName "/tmp" w0.tempCounter ∉ cW1.dirs) :=
  ⟨by decide, by decide,
   generateReport_cleanup_on_success cEnv cDesc "http://ms" "/tmp" "scan.sh" w0 cRes1 cW1
     (by decide) (by decide) (by decide)⟩

/-- Claim C3 counterexample: the descriptor is serialized with
JSON.stringify, which preserves field order: the same fields in the
opposite order serialize differently and hash to different fingerprints,
so canonicalization does not happen. -/
theorem fingerprint_field_order_counterexample :
    cDescOrdA = cDescOrdB.reverse ∧
    jsonStringify cDescOrdA ≠ jsonStringify cDescOrdB ∧
    base64sha256 (jsonStringify cDescOrdA) ≠ base64sha256 (jsonStringify cDescOrdB) := by
  refine ⟨by decide, by decide, by decide⟩

/-- Claim C3 (amended): the fingerprint is deterministic and depends only
on the serialized descriptor: descriptors with equal JSON.stringify output
get equal fingerprints.  Equality of fields up to reordering is not enough
(see the counterexample). -/
theorem fingerprint_depends_on_serialization (D1 D2 : JObj)
    (h : jsonStringify D1 = jsonStringify D2) :
    base64sha256 (jsonStringify D1) = base64sha256 (jsonStringify D2) := by rw [h]

/-- Witness for the amended C3: determinism at a concrete descriptor. -/
theorem fingerprint_depends_on_serialization_witness :
    jsonStringify cDesc = jsonStringify cDesc ∧
    base64sha256 (jsonStringify cDesc) = base64sha256 (jsonStringify cDesc) :=
  ⟨rfl, fingerprint_depends_on_serialization cDesc cDesc rfl⟩

/-- Claim C4: a fetch or decrypt failure (a thrown ClientError) aborts
generateReport before any cache write: the cache is unchanged and has no
entry for the descriptor fingerprint, and a subsequent call that succeeds
runs the full pipeline (one new scan) and caches its verdict normally. -/
theorem generateReport_error_no_cache_write (env env2 : Env) (D : JObj) (opts : Opts)
    (w : World) (st : Nat) (m : String) (w' : World)
    (h : generateReport env D opts w = (.error (.clientError st m), w')) :
    w'.resultCache = w.resultCache ∧
    w'.resultCache.lookup (base64sha256 (jsonStringify D)) = none ∧
    ∀ r2 w2, generateReport env2 D opts w' = (.ok r2, w2) →
      w2.resultCache.lookup (base64sha256 (jsonStringify D)) = some r2 ∧
      w2.scanLog.length = w'.scanLog.length + 1 := by
  have hcache := generateReport_error_cache env D opts w _ w' h
  have hmiss := generateReport_clientError_precheck env D opts w st m w' h
  refine ⟨hcache, by rw [hcache]; exact hmiss, ?_⟩
  intro r2 w2 h2
  exact ⟨generateReport_ok_cache env2 D opts w' r2 w2 h2,
         generateReport_ok_miss_scan env2 D opts w' r2 w2 h2 (by rw [hcache]; exact hmiss)⟩

/-- Witness for C4: a decrypt failure writes nothing to the cache and a
corrected retry scans once and caches. -/
theorem generateReport_error_no_cache_write_witness :
    cWFail.resultCache = w0.resultCache ∧
    cWFail.resultCache.lookup (base64sha256 (jsonStringify cDescKey)) = none ∧
    (cWRetry.resultCache.lookup (base64sha256 (jsonStringify cDescKey)) = some cResK ∧
     cWRetry.scanLog.length = cWFail.scanLog.length + 1) := by
  have h := generateReport_error_no_cache_write cEnvDecFail cEnv cDescKey cOpts w0 400
    "Failed to decrypt file" cWFail (by decide)
  exact ⟨h.1, h.2.1, h.2.2 cResK cWRetry (by decide)⟩

/-- Claim C5: after a successful generateReport, getReport at the
descriptor fingerprint answers scanned = true with the same clean and info
values as the verdict generateReport returned. -/
theorem getReport_after_generate (env : Env) (D : JObj) (opts : Opts) (w : World)
    (r : CachedResult) (w' : World)
    (h : generateReport env D opts w = (.ok r, w')) :
    getReport w'.resultCache (base64sha256 (jsonStringify D))
      = { clean := some r.clean, scanned := true, info := some r.info } := by
  have hc := generateReport_ok_cache env D opts w r w' h
  simp [getReport, cacheAccess, hc]

/-- Witness for C5 at a concrete run. -/
theorem getReport_after_generate_witness :
    getReport cW1.resultCache (base64sha256 (jsonStringify cDesc))
      = { clean := some cRes1.clean, scanned := true, info := some cRes1.info } :=
  getReport_after_generate cEnv cDesc cOpts w0 cRes1 cW1 (by decide)

/-- For a secret with no cache entry that also names no inherited
Object.prototype member, getReport does return the fixed not-scanned
response.  The restriction on inherited names is necessary: see the
divergence theorem below for what the code does without it. -/
theorem getReport_unknown_plain_secret (cache : ResultCache) (s : String)
    (h : cache.lookup s = none) (hp : s ∉ objectPrototypeKeys) :
    getReport cache s
      = { clean := some false, scanned := false,
          info := some "Secret not recognised, file not scanned." } := by
  simp [getReport, cacheAccess, h, hp]

/-- Claim C6 is refuted by the code: it quantifies over every secret with
no cache entry, but the plain-object cache read follows the prototype
chain.  At the failing input, the secret constructor against the empty
cache, resultCache stores nothing (first conjunct) yet the access finds
the truthy inherited Object.prototype.constructor, so getReport skips the
not-recognised branch and answers scanned = true with clean and info
undefined (second conjunct) instead of the claimed scanned = false,
clean = false response; for a secret that names no inherited member the
claimed response does hold (third conjunct). -/
theorem getReport_prototype_key_divergence :
    ([] : ResultCache).lookup "constructor" = none ∧
    getReport ([] : ResultCache) "constructor"
      = { clean := none, scanned := true, info := none } ∧
    getReport (clearReportCache cW1.resultCache) "nosuchsecret"
      = { clean := some false, scanned := false,
          info := some "Secret not recognised, file not scanned." } := by
  decide

/-- Claim C7 counterexample: two raced calls for the same uncached
descriptor are not coalesced.  Both calls read the cache in the initial
world (a miss for both, first conjunct), so both commit to the miss
pipeline; executing the two pipelines produces two scanner invocations for
the same fingerprint instead of exactly one. -/
theorem concurrent_generate_two_scans_counterexample :
    w0.resultCache.lookup (base64sha256 (jsonStringify cDesc)) = none ∧
    (generateReportMiss cEnv cDesc "/tmp" "scan.sh"
        "http://ms/_matrix/media/v1/download/a/b" (base64sha256 (jsonStringify cDesc))
        (generateReport cEnv cDesc cOpts w0).2).2.scanLog
      = ["scan.sh /tmp/av-0/unsafeEncryptedFile",
         "scan.sh /tmp/av-1/unsafeEncryptedFile"] := by
  decide

/-- Claim C7 (amended): concurrent generateReport calls on the same
not-yet-cached fingerprint are not coalesced.  In the Node event loop both
calls run their synchronous prefix up to the cache check before either
pipeline completes; a caller that saw a miss never re-checks and runs the
whole miss pipeline.  Modelling the race by a second caller that checked
the cache in the pre-state (hmiss) and then runs the miss path after the
first call finished, the two calls execute two scans in total. -/
theorem concurrent_generate_not_coalesced (env : Env) (D : JObj) (b t s u : String)
    (w : World) (rA : CachedResult) (wA : World) (rB : CachedResult) (wB : World)
    (hu : getStrField D "url" = some u)
    (hmiss : w.resultCache.lookup (base64sha256 (jsonStringify D)) = none)
    (hA : generateReport env D { baseUrl := some b, tempDirectory := some t, script := some s } w
            = (.ok rA, wA))
    (hB : generateReportMiss env D t s (b ++ "/_matrix/media/v1/download/" ++ jsDrop u 6)
            (base64sha256 (jsonStringify D)) wA = (.ok rB, wB)) :
    wB.scanLog.length = w.scanLog.length + 2 := by
  have h1 := generateReport_ok_miss_scan env D _ w rA wA hA hmiss
  have h2 := (generateReportMiss_ok _ _ _ _ _ _ _ _ _ hB).2.1
  omega

/-- Witness for the amended C7 at a concrete raced pair of calls. -/
theorem concurrent_generate_not_coalesced_witness :
    getStrField cDesc "url" = some "mxc://a/b" ∧
    w0.resultCache.lookup (base64sha256 (jsonStringify cDesc)) = none ∧
    cWRace.scanLog.length = w0.scanLog.length + 2 :=
  ⟨by decide, by decide,
   concurrent_generate_not_coalesced cEnv cDesc "http://ms" "/tmp" "scan.sh" "mxc://a/b"
     w0 cRes1 cW1 cRes1 cWRace (by decide) (by decide) (by decide) (by decide)⟩

/-- Claim C8 counterexample: the redaction shows the first 4 and last 4
characters with JS slice semantics, so a three-character secret appears in
full (twice) in the rendering: the full secret is rendered. -/
theorem redactedSecret_short_not_elided :
    redactedSecret "abc" = "abc...abc" ∧
    List.IsInfix "abc".data (redactedSecret "abc").data := by
  exact ⟨by decide, ⟨[], "...abc".data, by decide⟩⟩

/-- Claim C8 (amended): for secrets of length at least 12 (the secrets the
scanner issues are 44-character base64 digests) the rendering has exactly
11 characters, the 4-character prefix, three dots and the 4-character
suffix, and cannot contain the whole secret; for shorter secrets the
rendering can expose the full secret (see the counterexample). -/
theorem redactedSecret_elides_long_secrets (s : String) (h : 12 ≤ s.length) :
    (redactedSecret s).length = 11 ∧ ¬ List.IsInfix s.data (redactedSecret s).data := by
  have hn : 12 ≤ s.data.length := h
  have hdata : (redactedSecret s).data
      = s.data.take 4 ++ ('.' :: '.' :: '.' :: []) ++ s.data.drop (s.data.length - 4) := by
    show (jsTake s 4 ++ "..." ++ jsDrop s (s.length - 4)).data = _
    rw [String.data_append, String.data_append]
    rfl
  have hlen : (redactedSecret s).data.length = 11 := by
    rw [hdata]
    simp only [List.length_append, List.length_take, List.length_drop, List.length_cons,
      List.length_nil]
    omega
  refine ⟨hlen, ?_⟩
  intro hinf
  have hle := List.IsInfix.length_le hinf
  rw [hlen] at hle
  omega

/-- Witness for the amended C8 at a concrete 44-character secret. -/
theorem redactedSecret_elides_long_secrets_witness :
    12 ≤ (base64sha256 (jsonStringify cDesc)).length ∧
    ((redactedSecret (base64sha256 (jsonStringify cDesc))).length = 11 ∧
     ¬ List.IsInfix (base64sha256 (jsonStringify cDesc)).data
         (redactedSecret (base64sha256 (jsonStringify cDesc))).data) :=
  ⟨by decide, redactedSecret_elides_long_secrets (base64sha256 (jsonStringify cDesc))
     (by decide)⟩

/-- Claim C9: if baseUrl, tempDirectory or script is missing from opts,
generateReport throws the configuration Error and returns the world
unchanged: no fetch, no decrypt, no scan and no cache write happened. -/
theorem generateReport_missing_config (env : Env) (D : JObj) (opts : Opts) (w : World)
    (h : opts.baseUrl = none ∨ opts.tempDirectory = none ∨ opts.script = none) :
    generateReport env D opts w
      = (.error (.error "Expected baseUrl, tempDirectory and script in opts"), w) := by
  obtain ⟨ob, ot, os⟩ := opts
  rcases ob with _ | b <;> rcases ot with _ | t <;> rcases os with _ | s <;>
    simp_all [generateReport]

/-- Witness for C9 at a configuration with no script. -/
theorem generateReport_missing_config_witness :
    (Opts.mk (some "http://ms") (some "/tmp") none).script = none ∧
    generateReport cEnv cDesc (Opts.mk (some "http://ms") (some "/tmp") none) w0
      = (.error (.error "Expected baseUrl, tempDirectory and script in opts"), w0) :=
  ⟨rfl, generateReport_missing_config cEnv cDesc (Opts.mk (some "http://ms") (some "/tmp") none)
     w0 (Or.inr (Or.inr rfl))⟩

/-- Claim C10: on a cache miss the download target is formed by
unconditionally dropping the first 6 characters of the descriptor url
(JS slice(6), empty result when the url is shorter) and appending the rest
to baseUrl and the media download path, with no check that the url starts
with the mxc scheme; the fetch is issued on exactly that URL. -/
theorem generateReport_download_url_unchecked (env : Env) (D : JObj) (b t s u : String)
    (w : World)
    (hu : getStrField D "url" = some u)
    (hmiss : w.resultCache.lookup (base64sha256 (jsonStringify D)) = none) :
    (generateReport env D { baseUrl := some b, tempDirectory := some t, script := some s }
        w).2.fetchLog
      = w.fetchLog ++ [b ++ "/_matrix/media/v1/download/" ++ jsDrop u 6] := by
  simp only [generateReport, hu, hmiss]
  exact generateReportMiss_fetchLog _ _ _ _ _ _ _

/-- Witness for C10: a 3-character url with no scheme is sliced to the
empty string and fetched without any validation. -/
theorem generateReport_download_url_unchecked_witness :
    getStrField cDescNoScheme "url" = some "abc" ∧
    w0.resultCache.lookup (base64sha256 (jsonStringify cDescNoScheme)) = none ∧
    (generateReport cEnv cDescNoScheme
        { baseUrl := some "http://ms", tempDirectory := some "/tmp", script := some "scan.sh" }
        w0).2.fetchLog
      = w0.fetchLog ++ ["http://ms" ++ "/_matrix/media/v1/download/" ++ jsDrop "abc" 6] :=
  ⟨by decide, by decide,
   generateReport_download_url_unchecked cEnv cDescNoScheme "http://ms" "/tmp" "scan.sh" "abc"
     w0 (by decide) (by decide)⟩

end MCS
